import Mathlib

/-!
Verification of the load-balancer IP block lifecycle coordinator of the
PhoenixNAP Kubernetes cloud provider (`phoenixnap/loadbalancers.go`,
`phoenixnap/tags.go`).

The Go code is shallowly embedded: the remote provider (IP block store,
tag-definition store, public-network attachment) together with the
Kubernetes service objects is modelled as an explicit `Store` value, and
each reconciler operation is a Lean function from a store to a result,
an updated store and the list of remote calls (`Effect`s) it issued.
Remote-store behaviour that lives outside this repository (the PhoenixNAP
SDK/provider) is modelled from the spec: tag-predicate queries match
blocks carrying each required name/value pair, a successful attach
records the assignment on the block, a successful tag create adds the
definition.  IP addresses follow Go `net/netip` restricted to IPv4
dotted-quad form (every address this program manipulates is IPv4).
-/

namespace PnapCCM

/-! ### Constants, from `phoenixnap/constants.go` -/

def pnapIdentifier : String := "cloud-provider-phoenixnap-auto"

def pnapTag : String := "usage"

def pnapValue : String := pnapIdentifier

def deleteTag : String := "delete"

def serviceNamespaceTag : String := "serviceNamespace"

def serviceNameTag : String := "serviceName"

def serviceBlockCidr : Nat := 29

def publicNetworkCaps : String := "PUBLIC_NETWORK"

def publicNetwork : String := "public network"

/-! ### IPv4 addresses, modelling Go `net/netip` (IPv4 dotted-quad form) -/

/-- Character is a decimal digit. -/
def isDigit (c : Char) : Bool := '0' ≤ c && c ≤ '9'

/-- Numeric value of a decimal digit character. -/
def digitVal (c : Char) : Nat := c.toNat - 48

/-- Parse one IPv4 octet: 1-3 digits, value at most 255, no leading zero
(the rules of `net/netip`'s IPv4 field parser). -/
def parseOctet : List Char → Option Nat
  | [a] => if isDigit a then some (digitVal a) else none
  | [a, b] =>
    if isDigit a && isDigit b && a != '0' then some (digitVal a * 10 + digitVal b) else none
  | [a, b, c] =>
    if isDigit a && isDigit b && isDigit c && a != '0' then
      let v := digitVal a * 100 + digitVal b * 10 + digitVal c
      if v ≤ 255 then some v else none
    else none
  | _ => none

/-- Split a character list on a separator character (keeping empty fields,
like Go `strings.Split`). -/
def splitOnChar (sep : Char) : List Char → List (List Char)
  | [] => [[]]
  | c :: rest =>
    let r := splitOnChar sep rest
    if c = sep then [] :: r
    else
      match r with
      | [] => [[c]]
      | h :: t => (c :: h) :: t

/-- Parse an IPv4 address in dotted-quad form to its 32-bit value; models
`netip.ParseAddr` restricted to IPv4 (all addresses in this program are
IPv4; non-IPv4 strings are out of the model and parse to `none`). -/
def parseAddr (s : String) : Option Nat :=
  match splitOnChar '.' s.toList with
  | [a, b, c, d] => do
    let va ← parseOctet a
    let vb ← parseOctet b
    let vc ← parseOctet c
    let vd ← parseOctet d
    some (((va * 256 + vb) * 256 + vc) * 256 + vd)
  | _ => none

/-- A parsed CIDR: 32-bit base address (as parsed, host bits not masked,
exactly as `netip.Prefix.Addr` returns the address that was written) and
bit count. -/
structure CidrBlock where
  addr : Nat
  bits : Nat
deriving DecidableEq, Repr

/-- Parse the bit-count part of a CIDR: decimal, no leading zero. -/
def parseBits : List Char → Option Nat
  | [a] => if isDigit a then some (digitVal a) else none
  | [a, b] =>
    if isDigit a && isDigit b && a != '0' then some (digitVal a * 10 + digitVal b) else none
  | _ => none

/-- Parse an address/bits CIDR string; models `netip.ParsePrefix` for IPv4
(bit count at most 32). -/
def parseCIDR (s : String) : Option CidrBlock :=
  match splitOnChar '/' s.toList with
  | [a, b] => do
    let addr ← parseAddr (String.mk a)
    let bits ← parseBits b
    if bits ≤ 32 then some ⟨addr, bits⟩ else none
  | _ => none

/-- Containment of an address in a CIDR; models `netip.Prefix.Contains`
for IPv4: the two addresses agree on the first `bits` bits. -/
def cidrContains (p : CidrBlock) (ip : Nat) : Bool :=
  ip / 2 ^ (32 - p.bits) == p.addr / 2 ^ (32 - p.bits)

/-- Decimal digit characters of a natural number (fuel-structured so the
kernel evaluates it). -/
def natToDigits : Nat → Nat → List Char
  | 0, _ => []
  | fuel + 1, n =>
    if n < 10 then [Char.ofNat (48 + n)]
    else natToDigits fuel (n / 10) ++ [Char.ofNat (48 + n % 10)]

/-- Decimal string of a natural number. -/
def natToString (n : Nat) : String := String.mk (natToDigits (n + 1) n)

/-- Dotted-quad string of a 32-bit address value; models `netip.Addr.String`
for IPv4. -/
def addrString (ip : Nat) : String :=
  natToString (ip / 2 ^ 24 % 256) ++ "." ++ natToString (ip / 2 ^ 16 % 256) ++ "."
    ++ natToString (ip / 2 ^ 8 % 256) ++ "." ++ natToString (ip % 256)

/-- Successor address; models `netip.Addr.Next`, which returns the zero
(invalid) address past the end of the space. -/
def addrNext (ip : Nat) : Option Nat :=
  if ip + 1 < 2 ^ 32 then some (ip + 1) else none

/-- The string `network.Next().Next().String()` computed by
`EnsureLoadBalancer` (loadbalancers.go lines 282-284) from the parsed
CIDR's address; the string form of the zero `Addr` is "invalid IP". -/
def deriveIP (networkAddr : Nat) : String :=
  match addrNext networkAddr with
  | none => "invalid IP"
  | some a1 =>
    match addrNext a1 with
    | none => "invalid IP"
    | some a2 => addrString a2

/-! ### Data model -/

/-- A tag on an IP block (`ipapi.TagAssignment` / `TagAssignmentRequest`):
name and optional value. -/
structure TagAssignment where
  name : String
  value : Option String
deriving DecidableEq, Repr

/-- An IP block as held by the remote provider (`ipapi.IpBlock`, the fields
this program reads). -/
structure IpBlock where
  id : String
  cidr : String
  tags : List TagAssignment
  status : String
  assignedResourceType : Option String
  assignedResourceId : Option String
deriving DecidableEq, Repr

/-- A Kubernetes service object, restricted to the fields the reconciler
reads and writes: namespace (`ns`), name, and `Spec.LoadBalancerIP`. -/
structure Service where
  ns : String
  name : String
  loadBalancerIP : String
deriving DecidableEq, Repr

/-- A Kubernetes node: name, labels, `Spec.ProviderID`. -/
structure Node where
  name : String
  labels : List (String × String)
  providerID : String
deriving DecidableEq, Repr

/-- The fixed fields of the `loadBalancers` object that the modelled
operations read. -/
structure LB where
  location : String
  clusterID : String
  network : String
deriving DecidableEq, Repr

/-- The world the reconciler acts on: the remote provider's block and
tag-definition stores, the Kubernetes service objects, the id/CIDR the
provider will hand to the next block creation, and which remote or
Kubernetes calls fail (for the error-path claims). -/
structure Store where
  blocks : List IpBlock
  tagDefs : List String
  services : List Service
  freshId : String
  freshCidr : String
  tagsGetFails : Bool
  failingTagCreates : List String
  svcGetFails : Bool
  svcUpdateFails : Bool
deriving DecidableEq, Repr

/-- A remote (or Kubernetes / backend) call issued by an operation. -/
inductive Effect where
  | tagCreate (name : String)
  | blockCreate (location : String) (cidrBlockSize : String) (tags : List TagAssignment)
  | blockAssign (network : String) (blockId : String)
  | blockUnassign (network : String) (blockId : String)
  | blockDelete (blockId : String)
  | blockTagsPut (blockId : String) (tags : List TagAssignment)
  | serviceUpdate (ns : String) (name : String) (ip : String)
  | backendAddService (ns : String) (name : String) (ipCidr : String) (nodes : List Node)
  | backendUpdateService (ns : String) (name : String) (nodes : List Node)
deriving DecidableEq, Repr

/-- Effect is a detach-from-network call. -/
def Effect.isBlockUnassign : Effect → Bool
  | .blockUnassign _ _ => true
  | _ => false

/-- Effect is a permanent block delete. -/
def Effect.isBlockDelete : Effect → Bool
  | .blockDelete _ => true
  | _ => false

/-- Effect is a block creation. -/
def Effect.isBlockCreate : Effect → Bool
  | .blockCreate _ _ _ => true
  | _ => false

/-! ### Shared utility functions of `loadbalancers.go` -/

/-- Models `serviceRep` (loadbalancers.go lines 494-499). -/
def serviceRep (svc : Service) : String := svc.ns ++ "/" ++ svc.name

/-- Models `clusterTag` (loadbalancers.go lines 501-503): the fixed tag
name is "cluster", the value the cluster id. -/
def clusterTagName : String := "cluster"

/-- Models `filterNodes` (loadbalancers.go lines 505-514); the label
selector is a predicate on a node's label set. -/
def filterNodes (nodes : List Node) (sel : List (String × String) → Bool) : List Node :=
  nodes.filter (fun n => sel n.labels)

/-- Block carries a tag with this name and this value.  Modelled from the
spec: the provider's tag-predicate query ("name.value" terms) matches
blocks whose tag set carries each required name/value pair. -/
def tagMatches (b : IpBlock) (tname tvalue : String) : Bool :=
  b.tags.any (fun t => t.name == tname && t.value == some tvalue)

/-- Block carries the delete marker (loadbalancers.go lines 423-429). -/
def isDeleted (b : IpBlock) : Bool :=
  b.tags.any (fun t => t.name == deleteTag)

/-- The tag predicate built by `getIPBlocks` (loadbalancers.go lines
399-408): cluster and usage terms always, service name/namespace terms
when non-empty. -/
def queryTags (l : LB) (ns name : String) : List (String × String) :=
  let base := [(clusterTagName, l.clusterID), (pnapTag, pnapValue)]
  let base := if name != "" then base ++ [(serviceNameTag, name)] else base
  if ns != "" then base ++ [(serviceNamespaceTag, ns)] else base

/-- Models `getIPBlocks` (loadbalancers.go lines 398-438): query the
provider by tag predicate, then locally keep deleted blocks when
`deleted` was asked, non-deleted blocks when `active` was asked. -/
def getIPBlocks (l : LB) (s : Store) (ns name : String) (active deleted : Bool) :
    List IpBlock :=
  let blocks := s.blocks.filter (fun b => (queryTags l ns name).all (fun p => tagMatches b p.1 p.2))
  if active && deleted then blocks
  else blocks.filter (fun b => (isDeleted b && deleted) || (!isDeleted b && active))

/-! ### GetLoadBalancer -/

/-- Result of `GetLoadBalancer`: Go's `(status, exists, err)` triple.  The
status is the single ingress IP when present. -/
inductive LBGet where
  | failure (msg : String)
  | ok (status : Option String) (found : Bool)
deriving DecidableEq, Repr

/-- Models `GetLoadBalancer` (loadbalancers.go lines 132-195). -/
def GetLoadBalancer (l : LB) (s : Store) (service : Service) : LBGet :=
  if service.loadBalancerIP == "" then .ok none false
  else
    match parseAddr service.loadBalancerIP with
    | none => .failure ("invalid service IP " ++ service.loadBalancerIP)
    | some svcIP =>
      match getIPBlocks l s service.ns service.name true false with
      | [] => .ok none false
      | [block] =>
        match parseCIDR block.cidr with
        | none => .failure ("invalid CIDR in block " ++ block.cidr)
        | some network =>
          if !cidrContains network svcIP then
            .failure ("block " ++ block.cidr ++ " does not contain IP")
          else
            match block.assignedResourceType with
            | none => .failure ("block " ++ block.cidr ++ " has no assigned resource type")
            | some rtype =>
              if rtype != publicNetwork && rtype != publicNetworkCaps then
                .failure ("block " ++ block.cidr ++ " is not assigned to a public network")
              else
                match block.assignedResourceId with
                | none => .failure ("block " ++ block.cidr ++ " has no assigned resource ID")
                | some rid =>
                  if rid != l.network then
                    .failure ("block " ++ block.cidr ++ " is assigned to another network")
                  else .ok (some (addrString svcIP)) true
      | _ => .failure ("more than one block found for service " ++ serviceRep service)

/-! ### Tag Store Adapter (`phoenixnap/tags.go`) -/

/-- Create the listed tag definitions in order; models the creation loop of
`ensureTags` (tags.go lines 336-342).  A failing create stops the loop
with an error; each successful create adds the definition to the remote
store and is recorded as an effect. -/
def createTagsLoop : Store → List String → Except String Unit × Store × List Effect
  | s, [] => (.ok (), s, [])
  | s, t :: rest =>
    if s.failingTagCreates.contains t then (.error ("unable to create tag " ++ t), s, [])
    else
      match createTagsLoop { s with tagDefs := s.tagDefs ++ [t] } rest with
      | (r, s2, effs) => (r, s2, .tagCreate t :: effs)

/-- Models `ensureTags` (tags.go lines 318-343): list the existing tag
definitions, then create exactly the required names absent from that
listing. -/
def ensureTags (s : Store) (tags : List String) : Except String Unit × Store × List Effect :=
  if s.tagsGetFails then (.error ("unable to get all tags"), s, [])
  else createTagsLoop s (tags.filter (fun t => !s.tagDefs.contains t))

/-! ### EnsureLoadBalancer (loadbalancers.go lines 208-300) -/

/-- The initial tag set of a newly created block (loadbalancers.go lines
243-248). -/
def newBlockTags (l : LB) (svc : Service) : List TagAssignment :=
  [⟨pnapTag, some pnapValue⟩, ⟨clusterTagName, some l.clusterID⟩,
    ⟨serviceNamespaceTag, some svc.ns⟩, ⟨serviceNameTag, some svc.name⟩]

/-- Find-or-create step of `EnsureLoadBalancer` (loadbalancers.go lines
234-258): reuse the single active block when one exists, otherwise ensure
the tag vocabulary and create a block tagged for this service.  The
provider hands back the store's fresh id and CIDR; a created block starts
unassigned (modelled from the spec). -/
def findOrCreateBlock (l : LB) (s : Store) (svc : Service) (blocks : List IpBlock) :
    Except String IpBlock × Store × List Effect :=
  match blocks with
  | [b] => (.ok b, s, [])
  | _ =>
    match ensureTags s [pnapTag, clusterTagName, serviceNamespaceTag, serviceNameTag, deleteTag] with
    | (.error e, s1, effs1) => (.error ("unable to ensure tags exist: " ++ e), s1, effs1)
    | (.ok _, s1, effs1) =>
      let newBlock : IpBlock :=
        { id := s1.freshId, cidr := s1.freshCidr, tags := newBlockTags l svc,
          status := "unassigned", assignedResourceType := none, assignedResourceId := none }
      let s2 := { s1 with blocks := s1.blocks ++ [newBlock] }
      (.ok newBlock, s2,
        effs1 ++ [.blockCreate l.location ("/" ++ natToString serviceBlockCidr) (newBlockTags l svc)])

/-- Record a successful attach on the block in the remote store.  Modelled
from the spec: after the attach call the block is bound to the network and
its status is "assigned". -/
def assignBlock (s : Store) (bid network : String) : Store :=
  { s with
    blocks := s.blocks.map (fun x =>
      if x.id == bid then
        { x with
          assignedResourceType := some publicNetworkCaps
          assignedResourceId := some network
          status := "assigned" }
      else x) }

/-- Assignment validation / attach step of `EnsureLoadBalancer`
(loadbalancers.go lines 259-275): a block already assigned must be
assigned to a public network with the configured id; an unassigned block
is attached to the configured network. -/
def checkOrAssign (l : LB) (s : Store) (b : IpBlock) : Except String Unit × Store × List Effect :=
  match b.assignedResourceType with
  | some rtype =>
    if rtype != publicNetwork && rtype != publicNetworkCaps then
      (.error ("block " ++ b.cidr ++ " is assigned to " ++ rtype ++ " and not to a public network"), s, [])
    else
      match b.assignedResourceId with
      | none => (.error ("block " ++ b.cidr ++ " has an assigned resource type but not ID"), s, [])
      | some rid =>
        if rid != l.network then
          (.error ("block " ++ b.cidr ++ " is assigned to another network"), s, [])
        else (.ok (), s, [])
  | none => (.ok (), assignBlock s b.id l.network, [.blockAssign l.network b.id])

/-- Find the Kubernetes service object (namespace, name). -/
def findService (s : Store) (ns name : String) : Option Service :=
  s.services.find? (fun x => x.ns == ns && x.name == name)

/-- Replace the Kubernetes service object carrying this namespace/name. -/
def updateService (s : Store) (svc : Service) : Store :=
  { s with
    services := s.services.map (fun x =>
      if x.ns == svc.ns && x.name == svc.name then svc else x) }

/-- Models `addService` (loadbalancers.go lines 448-492): when the
passed-in service records no IP, fetch the latest service object and
persist `ip` onto it; then hand the service to the backend.  Go declares
`svcIPCidr` and never assigns it, so the returned string — also the
ip-or-cidr passed to the backend's AddService — is the empty string. -/
def addService (l : LB) (s : Store) (svc : Service) (ip : String) (nodes : List Node) :
    Except String String × Store × List Effect :=
  let svcIPCidr : String := ""
  if svc.loadBalancerIP == "" then
    if s.svcGetFails then (.error ("failed to get latest for service " ++ serviceRep svc), s, [])
    else
      match findService s svc.ns svc.name with
      | none => (.error ("failed to get latest for service " ++ serviceRep svc), s, [])
      | some existing =>
        if s.svcUpdateFails then (.error ("failed to update service " ++ serviceRep svc), s, [])
        else
          let s2 := updateService s { existing with loadBalancerIP := ip }
          (.ok svcIPCidr, s2,
            [.serviceUpdate svc.ns svc.name ip, .backendAddService svc.ns svc.name svcIPCidr nodes])
  else (.ok svcIPCidr, s, [.backendAddService svc.ns svc.name svcIPCidr nodes])

/-- First component of Go `strings.SplitN(s, "/", 2)`: the characters up
to the first slash. -/
def takeUntilSlash : List Char → List Char
  | [] => []
  | c :: rest => if c = '/' then [] else c :: takeUntilSlash rest

/-- The `ip[0]` value of loadbalancers.go line 293. -/
def splitNFirst (s : String) : String := String.mk (takeUntilSlash s.toList)

/-- Models `EnsureLoadBalancer` (loadbalancers.go lines 208-300).  Returns
the ingress IP of the returned status, the updated store, and the calls
issued. -/
def EnsureLoadBalancer (l : LB) (sel : List (String × String) → Bool) (s : Store)
    (svc : Service) (nodes : List Node) : Except String String × Store × List Effect :=
  match GetLoadBalancer l s svc with
  | .failure msg => (.error msg, s, [])
  | .ok st true => (.ok (st.getD ("")), s, [])
  | .ok _ false =>
    let blocks := getIPBlocks l s svc.ns svc.name true false
    if blocks.length > 1 then
      (.error ("more than one block found for service " ++ serviceRep svc), s, [])
    else
      match findOrCreateBlock l s svc blocks with
      | (.error e, s1, effs1) => (.error e, s1, effs1)
      | (.ok b, s1, effs1) =>
        match checkOrAssign l s1 b with
        | (.error e, s2, effs2) => (.error e, s2, effs1 ++ effs2)
        | (.ok _, s2, effs2) =>
          match parseCIDR b.cidr with
          | none => (.error ("invalid CIDR in block " ++ b.cidr), s2, effs1 ++ effs2)
          | some network =>
            let foundIP := deriveIP network.addr
            match addService l s2 svc foundIP (filterNodes nodes sel) with
            | (.error e, s3, effs3) =>
              (.error ("failed to add service " ++ svc.name ++ ": " ++ e), s3,
                effs1 ++ effs2 ++ effs3)
            | (.ok ipCidr, s3, effs3) =>
              (.ok (splitNFirst ipCidr), s3, effs1 ++ effs2 ++ effs3)

/-! ### UpdateLoadBalancer (loadbalancers.go lines 306-323) -/

/-- Models `UpdateLoadBalancer`: walk the selector-filtered nodes, failing
on the first node without a provider id, else forward the filtered set to
the backend's update-service operation. -/
def UpdateLoadBalancer (l : LB) (sel : List (String × String) → Bool) (svc : Service)
    (nodes : List Node) : Except String Unit × List Effect :=
  match (filterNodes nodes sel).find? (fun n => n.providerID == "") with
  | some n => (.error ("no provider ID given for node " ++ n.name ++ ", skipping"), [])
  | none => (.ok (), [.backendUpdateService svc.ns svc.name (filterNodes nodes sel)])

/-! ### EnsureLoadBalancerDeleted (loadbalancers.go lines 333-392) -/

/-- The staged tag set written by `EnsureLoadBalancerDeleted`
(loadbalancers.go lines 372-384): the block's tags without the service
name/namespace tags, plus the delete marker valued "true". -/
def stagedTags (b : IpBlock) : List TagAssignment :=
  (b.tags.filter (fun t => !(t.name == serviceNameTag || t.name == serviceNamespaceTag)))
    ++ [⟨deleteTag, some ("true")⟩]

/-- First step of `EnsureLoadBalancerDeleted` (loadbalancers.go lines
340-353): fetch the latest service object and clear its recorded IP.  A
failed fetch (or an absent object) is logged and skipped; a failed update
aborts the operation with an error. -/
def clearServiceIP (s : Store) (svc : Service) : Except String Unit × Store × List Effect :=
  if s.svcGetFails then (.ok (), s, [])
  else
    match findService s svc.ns svc.name with
    | none => (.ok (), s, [])
    | some existing =>
      if s.svcUpdateFails then (.error ("failed to update service " ++ serviceRep svc), s, [])
      else
        ((.ok (), updateService s { existing with loadBalancerIP := "" },
          [.serviceUpdate svc.ns svc.name ("")]))

/-- Models `EnsureLoadBalancerDeleted` (loadbalancers.go lines 333-392):
clear the recorded IP from the service object (a failed fetch is logged
and skipped; a failed update aborts with an error), then re-tag the single
active block with the delete marker. -/
def EnsureLoadBalancerDeleted (l : LB) (s : Store) (svc : Service) :
    Except String Unit × Store × List Effect :=
  match clearServiceIP s svc with
  | (.error e, s1, effs1) => (.error e, s1, effs1)
  | (.ok _, s1, effs1) =>
    match getIPBlocks l s1 svc.ns svc.name true false with
    | [] => (.ok (), s1, effs1)
    | b :: rest =>
      if rest.length > 0 then
        (.error ("multiple IP blocks found for " ++ serviceRep svc ++ ", cannot delete"), s1, effs1)
      else
        let s2 :=
          { s1 with
            blocks := s1.blocks.map (fun x => if x.id == b.id then { x with tags := stagedTags b } else x) }
        (.ok (), s2, effs1 ++ [.blockTagsPut b.id (stagedTags b)])

/-! ### Garbage Collector tick (loadbalancers.go lines 89-121) -/

/-- The calls the GC loop body issues for one delete-marked block
(loadbalancers.go lines 103-118).  `first` is `blocks[0]`: the code's
detach branch targets `blocks[0].Id`, not the block being processed. -/
def gcBlockEffects (network : String) (first b : IpBlock) : List Effect :=
  if b.status == "unassigned" then [.blockDelete b.id]
  else if b.status == "unassigning" then []
  else [.blockUnassign network first.id]

/-- Models one tick of the reaper goroutine started by `newLoadBalancers`
(loadbalancers.go lines 89-121): list the delete-marked blocks
cluster-wide and process each by status. -/
def gcTick (l : LB) (s : Store) : List Effect :=
  match getIPBlocks l s ("") ("") false true with
  | [] => []
  | b :: bs => ((b :: bs).map (gcBlockEffects l.network b)).flatten

/-- Decidable equality for `Except`, so concrete runs can be settled by
`decide`. -/
instance {ε α : Type} [DecidableEq ε] [DecidableEq α] : DecidableEq (Except ε α) := fun a b =>
  match a, b with
  | .error e1, .error e2 =>
    if h : e1 = e2 then .isTrue (by rw [h]) else .isFalse (fun hc => h (Except.error.inj hc))
  | .ok v1, .ok v2 =>
    if h : v1 = v2 then .isTrue (by rw [h]) else .isFalse (fun hc => h (Except.ok.inj hc))
  | .error _, .ok _ => .isFalse Except.noConfusion
  | .ok _, .error _ => .isFalse Except.noConfusion

/-! ### Concrete fixtures used by the evaluation theorems and witnesses -/

/-- A coordinator configured for location PHX, cluster id c1, public
network net1. -/
def lbC : LB := ⟨"PHX", "c1", "net1"⟩

/-- The everything-matches node selector (`labels.Everything()`). -/
def selTrue : List (String × String) → Bool := fun _ => true

/-- A fresh service with no recorded IP. -/
def svcFresh : Service := ⟨"ns1", "svc-a", ""⟩

/-- A store with no blocks; the provider will hand out block id b1 with
CIDR 10.0.0.0/29. -/
def storeFresh : Store :=
  { blocks := [], tagDefs := [], services := [svcFresh], freshId := "b1",
    freshCidr := "10.0.0.0/29", tagsGetFails := false, failingTagCreates := [],
    svcGetFails := false, svcUpdateFails := false }

/-- The same service after an IP has been recorded on it. -/
def svcBound : Service := ⟨"ns1", "svc-a", "10.0.0.2"⟩

/-- An existing active, unattached block reserved for svcFresh. -/
def blkActive : IpBlock :=
  ⟨"b1", "10.0.0.0/29", newBlockTags lbC svcFresh, "unassigned", none, none⟩

/-- The same block after a successful attach to the configured network. -/
def blkAttached : IpBlock :=
  ⟨"b1", "10.0.0.0/29", newBlockTags lbC svcFresh, "assigned", some publicNetworkCaps,
    some ("net1")⟩

/-- Store holding one active block already attached to the configured
network (for example: a prior Ensure attached it but the service write
failed, and the call is being retried). -/
def storeOneAttached : Store :=
  { storeFresh with blocks := [blkAttached] }

/-- A second active block reserved for the same service (invariant
violation). -/
def blkActive2 : IpBlock :=
  ⟨"b2", "10.0.1.0/29", newBlockTags lbC svcFresh, "unassigned", none, none⟩

/-- Store holding exactly one active block for svcFresh. -/
def storeOneActive : Store :=
  { storeFresh with blocks := [blkActive] }

/-- Store holding two active blocks for svcFresh. -/
def storeTwoActive : Store :=
  { storeFresh with blocks := [blkActive, blkActive2] }

/-- Same store, but the Kubernetes service update call fails. -/
def storeOneActiveUpdFail : Store :=
  { storeOneActive with svcUpdateFails := true }

/-- Same store, but fetching the latest service object fails. -/
def storeOneActiveGetFail : Store :=
  { storeOneActive with svcGetFails := true }

/-- The tag set of a block staged for deletion (service tags stripped,
delete marker added). -/
def gcTags : List TagAssignment :=
  [⟨pnapTag, some pnapValue⟩, ⟨clusterTagName, some ("c1")⟩, ⟨deleteTag, some ("true")⟩]

/-- A delete-marked block whose detach is still settling. -/
def blkGc1 : IpBlock :=
  ⟨"g1", "10.0.0.0/29", gcTags, "unassigning", some publicNetworkCaps, some ("net1")⟩

/-- A delete-marked block still attached to the network. -/
def blkGc2 : IpBlock :=
  ⟨"g2", "10.0.1.0/29", gcTags, "assigned", some publicNetworkCaps, some ("net1")⟩

/-- A delete-marked block already detached. -/
def blkGc3 : IpBlock :=
  ⟨"g3", "10.0.2.0/29", gcTags, "unassigned", none, none⟩

/-- GC fixture: an unassigning first block followed by an attached one. -/
def storeGc : Store :=
  { storeFresh with blocks := [blkGc1, blkGc2] }

/-- GC fixture: a single attached delete-marked block. -/
def storeGcAssigned : Store :=
  { storeFresh with blocks := [blkGc2] }

/-- GC fixture: a single detached delete-marked block. -/
def storeGcUnassigned : Store :=
  { storeFresh with blocks := [blkGc3] }

/-- GC fixture: a single unassigning delete-marked block. -/
def storeGcUnassigning : Store :=
  { storeFresh with blocks := [blkGc1] }

/-- Store for the tag-adapter claims: "usage" already declared, creation
of "serviceName" fails on the remote. -/
def storeTags : Store :=
  { blocks := [], tagDefs := [pnapTag], services := [], freshId := "",
    freshCidr := "", tagsGetFails := false, failingTagCreates := [serviceNameTag],
    svcGetFails := false, svcUpdateFails := false }

/-- Store whose tag-definition listing call fails. -/
def storeTagsListFail : Store :=
  { storeTags with tagsGetFails := true }

/-- A node with a provider id, labelled for load-balancing. -/
def nodeOk : Node := ⟨"n1", [("role", "lb")], "phoenixnap://id1"⟩

/-- A node without a provider id. -/
def nodeBad : Node := ⟨"n2", [("role", "lb")], ""⟩

/-- First run of EnsureLoadBalancer on the fresh store. -/
def ensureRun1 : Except String String × Store × List Effect :=
  EnsureLoadBalancer lbC selTrue storeFresh svcFresh []

/-- The service object as it stands after the first run. -/
def svcAfterRun1 : Service :=
  (findService ensureRun1.2.1 svcFresh.ns svcFresh.name).getD svcFresh

/-- Second, consecutive run of EnsureLoadBalancer with no intervening
external change. -/
def ensureRun2 : Except String String × Store × List Effect :=
  EnsureLoadBalancer lbC selTrue ensureRun1.2.1 svcAfterRun1 []

/-- Result classifiers used in the claim statements. -/
def LBGet.isFailure : LBGet → Bool
  | .failure _ => true
  | _ => false

/-- Result of a reconcile operation is an error. -/
def exceptIsError {α : Type} : Except String α → Bool
  | .error _ => true
  | _ => false

/-- Assignment of a block matches the configured network: a public-network
resource type and the configured network id (the checks of
loadbalancers.go lines 172-187). -/
def blockAssignedToNetwork (l : LB) (b : IpBlock) : Bool :=
  (match b.assignedResourceType with
    | some rtype => rtype == publicNetwork || rtype == publicNetworkCaps
    | none => false)
  && (b.assignedResourceId == some l.network)

/-! ### Supporting lemmas -/

theorem updateService_blocks (s : Store) (v : Service) : (updateService s v).blocks = s.blocks := rfl

theorem clearServiceIP_blocks (s : Store) (svc : Service) :
    (clearServiceIP s svc).2.1.blocks = s.blocks := by
  unfold clearServiceIP
  split
  · rfl
  · split
    · rfl
    · split
      · rfl
      · rfl

theorem clearServiceIP_effects (s : Store) (svc : Service) :
    (clearServiceIP s svc).2.2 = [] ∨
      (clearServiceIP s svc).2.2 = [.serviceUpdate svc.ns svc.name ("")] := by
  unfold clearServiceIP
  split
  · exact .inl rfl
  · split
    · exact .inl rfl
    · split
      · exact .inl rfl
      · exact .inr rfl

theorem getIPBlocks_blocks_congr {s1 s2 : Store} (l : LB) (ns name : String) (a d : Bool)
    (h : s1.blocks = s2.blocks) : getIPBlocks l s1 ns name a d = getIPBlocks l s2 ns name a d := by
  unfold getIPBlocks
  rw [h]

theorem mem_blocks_of_mem_getIPBlocks {l : LB} {s : Store} {ns name : String} {a d : Bool}
    {x : IpBlock} (h : x ∈ getIPBlocks l s ns name a d) : x ∈ s.blocks := by
  unfold getIPBlocks at h
  split at h
  · exact (List.mem_filter.mp h).1
  · exact (List.mem_filter.mp (List.mem_filter.mp h).1).1

theorem isDeleted_false_of_mem_active {l : LB} {s : Store} {ns name : String} {x : IpBlock}
    (h : x ∈ getIPBlocks l s ns name true false) : isDeleted x = false := by
  unfold getIPBlocks at h
  simp only [Bool.and_false, Bool.false_eq_true, if_false, List.mem_filter,
    Bool.and_true, Bool.or_false] at h
  simpa using h.2

theorem getLB_of_empty_ip {l : LB} {s : Store} {svc : Service} (h : svc.loadBalancerIP = "") :
    GetLoadBalancer l s svc = .ok none false := by
  simp [GetLoadBalancer, h]

theorem getLB_found_blocks {l : LB} {s : Store} {svc : Service} {st : Option String}
    (h : GetLoadBalancer l s svc = .ok st true) :
    (getIPBlocks l s svc.ns svc.name true false).length = 1 := by
  unfold GetLoadBalancer at h
  split at h
  · simp at h
  · split at h
    · simp at h
    · split at h
      · simp at h
      · next block heq => rw [heq]; rfl
      · simp at h

theorem createTagsLoop_ok : ∀ (s : Store) (ts : List String),
    (∀ t ∈ ts, s.failingTagCreates.contains t = false) →
    createTagsLoop s ts =
      (.ok (), { s with tagDefs := s.tagDefs ++ ts }, ts.map Effect.tagCreate) := by
  intro s ts
  induction ts generalizing s with
  | nil => intro _; simp [createTagsLoop]
  | cons t rest ih =>
    intro h
    have ht : s.failingTagCreates.contains t = false := h t (by simp)
    unfold createTagsLoop
    rw [ht]
    simp only [Bool.false_eq_true, if_false]
    have ih2 := ih { s with tagDefs := s.tagDefs ++ [t] }
      (fun x hx => h x (List.mem_cons_of_mem _ hx))
    rw [ih2]
    simp

theorem createTagsLoop_fail : ∀ (pre : List String) (s : Store) (t : String) (rest : List String),
    (∀ x ∈ pre, s.failingTagCreates.contains x = false) →
    s.failingTagCreates.contains t = true →
    createTagsLoop s (pre ++ t :: rest) =
      (.error ("unable to create tag " ++ t), { s with tagDefs := s.tagDefs ++ pre },
        pre.map Effect.tagCreate) := by
  intro pre
  induction pre with
  | nil =>
    intro s t rest _ ht
    rw [List.nil_append]
    unfold createTagsLoop
    rw [ht]
    simp
  | cons p pre ih =>
    intro s t rest h ht
    have hp : s.failingTagCreates.contains p = false := h p (by simp)
    rw [List.cons_append]
    unfold createTagsLoop
    rw [hp]
    simp only [Bool.false_eq_true, if_false]
    have ih2 := ih { s with tagDefs := s.tagDefs ++ [p] } t rest
      (fun x hx => h x (List.mem_cons_of_mem _ hx)) ht
    rw [ih2]
    simp

theorem parseAddr_empty : parseAddr ("") = none := by decide

/-! ### Claim theorems -/

/-- C1 counterexample: for the service svc-a with a single active block of
CIDR 10.0.0.0/29, `EnsureLoadBalancer` writes 10.0.0.2 — not 10.0.0.3 — to
the service object, and never writes 10.0.0.3. -/
theorem C1_counterexample :
    Effect.serviceUpdate ("ns1") ("svc-a") ("10.0.0.2")
        ∈ (EnsureLoadBalancer lbC selTrue storeOneActive svcFresh []).2.2
    ∧ findService (EnsureLoadBalancer lbC selTrue storeOneActive svcFresh []).2.1 ("ns1") ("svc-a")
        = some ⟨"ns1", "svc-a", "10.0.0.2"⟩
    ∧ Effect.serviceUpdate ("ns1") ("svc-a") ("10.0.0.3")
        ∉ (EnsureLoadBalancer lbC selTrue storeOneActive svcFresh []).2.2 := by
  decide

/-- C2 (code bug): on a fresh store, the first `EnsureLoadBalancer` call
persists 10.0.0.2 to the service but returns a status whose ingress IP is
the empty string (`addService` returns the never-assigned `svcIPCidr`
variable); the second, unchanged call returns 10.0.0.2.  The two calls
thus do not return the same IP and the first status does not carry the
derived address — though the second call does issue zero further remote
writes, creates no second block, and leaves the store unchanged. -/
theorem C2_code_bug :
    ensureRun1.1 = .ok ("") ∧
    Effect.serviceUpdate ("ns1") ("svc-a") ("10.0.0.2") ∈ ensureRun1.2.2 ∧
    ensureRun2.1 = .ok ("10.0.0.2") ∧
    ensureRun2.2.2 = [] ∧
    ensureRun2.2.1 = ensureRun1.2.1 ∧
    ensureRun1.2.1.blocks.length = 1 ∧
    (Except.ok ("") : Except String String) ≠ .ok ("10.0.0.2") := by
  decide

/-- C4 (code bug): a GC tick deletes an "unassigned" delete-marked block,
skips an "unassigning" one, and issues a detach for any other status — but
the detach call always targets `blocks[0].Id`: with delete-marked blocks
[g1 unassigning, g2 assigned], the tick detaches g1 (still unassigning)
instead of g2. -/
theorem C4_code_bug :
    gcTick lbC storeGcUnassigned = [.blockDelete ("g3")] ∧
    gcTick lbC storeGcUnassigning = [] ∧
    gcTick lbC storeGcAssigned = [.blockUnassign ("net1") ("g2")] ∧
    getIPBlocks lbC storeGc ("") ("") false true = [blkGc1, blkGc2] ∧
    blkGc1.status = "unassigning" ∧ blkGc2.status = "assigned" ∧
    gcTick lbC storeGc = [.blockUnassign ("net1") ("g1")] ∧
    Effect.blockUnassign ("net1") ("g2") ∉ gcTick lbC storeGc := by
  decide

/-- C3 counterexample: with two active blocks reserved for svc-a but no
recorded IP on the service, `GetLoadBalancer` returns (no status, not
found, no error) instead of an error. -/
theorem C3_counterexample :
    (getIPBlocks lbC storeTwoActive svcFresh.ns svcFresh.name true false).length = 2 ∧
    GetLoadBalancer lbC storeTwoActive svcFresh = .ok none false := by
  decide

/-- C6 counterexample: when the Kubernetes service update fails,
`EnsureLoadBalancerDeleted` returns an error and performs no block
re-tagging, instead of logging and continuing. -/
theorem C6_counterexample :
    exceptIsError (EnsureLoadBalancerDeleted lbC storeOneActiveUpdFail svcFresh).1 = true ∧
    (EnsureLoadBalancerDeleted lbC storeOneActiveUpdFail svcFresh).2.2 = [] ∧
    (EnsureLoadBalancerDeleted lbC storeOneActiveUpdFail svcFresh).2.1 = storeOneActiveUpdFail := by
  decide

theorem getLB_failure_of_unparseable {l : LB} {s : Store} {svc : Service}
    (hne : svc.loadBalancerIP ≠ "") (hpa : parseAddr svc.loadBalancerIP = none) :
    (GetLoadBalancer l s svc).isFailure = true := by
  unfold GetLoadBalancer
  rw [if_neg (by simpa using hne), hpa]
  rfl

theorem getLB_failure_of_many {l : LB} {s : Store} {svc : Service}
    (hne : svc.loadBalancerIP ≠ "")
    (h : 1 < (getIPBlocks l s svc.ns svc.name true false).length) :
    (GetLoadBalancer l s svc).isFailure = true := by
  unfold GetLoadBalancer
  rw [if_neg (by simpa using hne)]
  cases hpa : parseAddr svc.loadBalancerIP with
  | none => rfl
  | some ip =>
    rcases hq : getIPBlocks l s svc.ns svc.name true false with _ | ⟨b, _ | ⟨b2, rest⟩⟩
    · rw [hq] at h; simp at h
    · rw [hq] at h; simp at h
    · rfl

theorem getLB_failure_of_block {l : LB} {s : Store} {svc : Service} {ip : Nat} {b : IpBlock}
    (hpa : parseAddr svc.loadBalancerIP = some ip)
    (hq : getIPBlocks l s svc.ns svc.name true false = [b])
    (hbad : parseCIDR b.cidr = none
      ∨ (∀ p, parseCIDR b.cidr = some p → cidrContains p ip = false)
      ∨ blockAssignedToNetwork l b = false) :
    (GetLoadBalancer l s svc).isFailure = true := by
  have hne : svc.loadBalancerIP ≠ "" := by
    intro hE
    rw [hE, parseAddr_empty] at hpa
    exact Option.noConfusion hpa
  unfold GetLoadBalancer
  rw [if_neg (by simpa using hne)]
  simp only [hpa, hq]
  rcases hbad with hb1 | hb2 | hb3
  · simp [hb1, LBGet.isFailure]
  · cases hpc : parseCIDR b.cidr with
    | none => simp [LBGet.isFailure]
    | some p => simp [hb2 p hpc, LBGet.isFailure]
  · repeat' split
    all_goals try rfl
    all_goals (exfalso; simp_all [blockAssignedToNetwork])

theorem ensure_error_of_many {l : LB} {s : Store} {svc : Service}
    (h : 1 < (getIPBlocks l s svc.ns svc.name true false).length)
    (sel : List (String × String) → Bool) (nodes : List Node) :
    exceptIsError (EnsureLoadBalancer l sel s svc nodes).1 = true ∧
    (EnsureLoadBalancer l sel s svc nodes).2.1 = s ∧
    (EnsureLoadBalancer l sel s svc nodes).2.2 = [] := by
  unfold EnsureLoadBalancer
  cases hg : GetLoadBalancer l s svc with
  | failure msg => exact ⟨rfl, rfl, rfl⟩
  | ok st found =>
    cases found with
    | true =>
      have hl := getLB_found_blocks hg
      rw [hl] at h
      exact absurd h (by simp)
    | false =>
      rw [if_pos h]
      exact ⟨rfl, rfl, rfl⟩

/-- C3 (amended): for every service whose active-block query returns more
than one block, `GetLoadBalancer` returns an error provided the service
records an IP (with no recorded IP it reports "no load balancer" without
consulting the query), and `EnsureLoadBalancer` always returns an error,
leaves the store untouched and issues no remote call. -/
theorem C3_theorem (l : LB) (s : Store) (svc : Service)
    (h : 1 < (getIPBlocks l s svc.ns svc.name true false).length) :
    (svc.loadBalancerIP ≠ "" → (GetLoadBalancer l s svc).isFailure = true) ∧
    (∀ (sel : List (String × String) → Bool) (nodes : List Node),
      exceptIsError (EnsureLoadBalancer l sel s svc nodes).1 = true ∧
      (EnsureLoadBalancer l sel s svc nodes).2.1 = s ∧
      (EnsureLoadBalancer l sel s svc nodes).2.2 = []) :=
  ⟨fun hne => getLB_failure_of_many hne h,
    fun sel nodes => ensure_error_of_many h sel nodes⟩

/-- C3 witness: the amended claim at the two-block store, for the bound
service and for a fresh Ensure call. -/
theorem C3_witness :
    1 < (getIPBlocks lbC storeTwoActive svcBound.ns svcBound.name true false).length ∧
    (GetLoadBalancer lbC storeTwoActive svcBound).isFailure = true ∧
    exceptIsError (EnsureLoadBalancer lbC selTrue storeTwoActive svcBound []).1 = true :=
  ⟨by decide, (C3_theorem lbC storeTwoActive svcBound (by decide)).1 (by decide),
    ((C3_theorem lbC storeTwoActive svcBound (by decide)).2 selTrue []).1⟩

/-- C7: `GetLoadBalancer` returns (no status, not found, no error) for
every service recording no IP; for a service recording an IP it requires
exactly one active block (more than one is an error) and errors whenever
the recorded IP does not parse, or — for the single block — the block's
CIDR does not parse, the IP is not contained in it, or the block's
assignment does not match the configured network. -/
theorem C7_theorem (l : LB) (s : Store) (svc : Service) :
    (svc.loadBalancerIP = "" → GetLoadBalancer l s svc = .ok none false) ∧
    (svc.loadBalancerIP ≠ "" → 1 < (getIPBlocks l s svc.ns svc.name true false).length →
      (GetLoadBalancer l s svc).isFailure = true) ∧
    (svc.loadBalancerIP ≠ "" → parseAddr svc.loadBalancerIP = none →
      (GetLoadBalancer l s svc).isFailure = true) ∧
    (∀ (ip : Nat) (b : IpBlock), parseAddr svc.loadBalancerIP = some ip →
      getIPBlocks l s svc.ns svc.name true false = [b] →
      (parseCIDR b.cidr = none
        ∨ (∀ p, parseCIDR b.cidr = some p → cidrContains p ip = false)
        ∨ blockAssignedToNetwork l b = false) →
      (GetLoadBalancer l s svc).isFailure = true) :=
  ⟨fun h => getLB_of_empty_ip h,
    fun hne h => getLB_failure_of_many hne h,
    fun hne hpa => getLB_failure_of_unparseable hne hpa,
    fun _ _ hpa hq hbad => getLB_failure_of_block hpa hq hbad⟩

/-- C7 witness: the empty-IP case on the one-block store, and the
recorded-IP case where the single block is not yet attached to the
configured network. -/
theorem C7_witness :
    svcFresh.loadBalancerIP = "" ∧
    GetLoadBalancer lbC storeOneActive svcFresh = .ok none false ∧
    parseAddr svcBound.loadBalancerIP = some 167772162 ∧
    getIPBlocks lbC storeOneActive svcBound.ns svcBound.name true false = [blkActive] ∧
    blockAssignedToNetwork lbC blkActive = false ∧
    (GetLoadBalancer lbC storeOneActive svcBound).isFailure = true :=
  ⟨rfl, (C7_theorem lbC storeOneActive svcFresh).1 rfl, by decide, by decide, by decide,
    (C7_theorem lbC storeOneActive svcBound).2.2.2 167772162 blkActive (by decide) (by decide)
      (.inr (.inr (by decide)))⟩

/-- C9: `UpdateLoadBalancer` forwards exactly the selector-filtered node
set to the backend's update-service operation and issues no other call (in
particular no IP or block mutation); if any filtered node has an empty
provider id, the call fails with an error and the backend is not
invoked. -/
theorem C9_theorem (l : LB) (sel : List (String × String) → Bool) (svc : Service)
    (nodes : List Node) :
    ((∀ n ∈ filterNodes nodes sel, n.providerID ≠ "") →
      UpdateLoadBalancer l sel svc nodes =
        (.ok (), [.backendUpdateService svc.ns svc.name (filterNodes nodes sel)])) ∧
    (∀ n ∈ filterNodes nodes sel, n.providerID = "" →
      exceptIsError (UpdateLoadBalancer l sel svc nodes).1 = true ∧
      (UpdateLoadBalancer l sel svc nodes).2 = []) := by
  constructor
  · intro h
    unfold UpdateLoadBalancer
    rw [List.find?_eq_none.mpr (fun n hn => by simpa using h n hn)]
  · intro n hn hid
    unfold UpdateLoadBalancer
    cases hf : (filterNodes nodes sel).find? (fun n => n.providerID == "") with
    | none => exact absurd (by simp [hid]) (List.find?_eq_none.mp hf n hn)
    | some m => exact ⟨rfl, rfl⟩

/-- C9 witness: with all filtered nodes carrying provider ids the filtered
set is forwarded; with a filtered node lacking one the call errors without
invoking the backend. -/
theorem C9_witness :
    (∀ n ∈ filterNodes [nodeOk] selTrue, n.providerID ≠ "") ∧
    UpdateLoadBalancer lbC selTrue svcFresh [nodeOk] =
      (.ok (), [.backendUpdateService ("ns1") ("svc-a") [nodeOk]]) ∧
    nodeBad ∈ filterNodes [nodeOk, nodeBad] selTrue ∧
    exceptIsError (UpdateLoadBalancer lbC selTrue svcFresh [nodeOk, nodeBad]).1 = true ∧
    (UpdateLoadBalancer lbC selTrue svcFresh [nodeOk, nodeBad]).2 = [] :=
  ⟨by decide,
    (C9_theorem lbC selTrue svcFresh [nodeOk]).1 (by decide),
    by decide,
    ((C9_theorem lbC selTrue svcFresh [nodeOk, nodeBad]).2 nodeBad (by decide) rfl).1,
    ((C9_theorem lbC selTrue svcFresh [nodeOk, nodeBad]).2 nodeBad (by decide) rfl).2⟩

/-- C8: `ensureTags` lists the existing tag definitions and creates
exactly the required names absent from that listing (none already
present); after a fully successful call a second call creates nothing; a
failing list call returns an error having created nothing, and a failing
create returns an error with the creations made before it left in
place. -/
theorem C8_theorem (s : Store) (tags : List String) :
    (s.tagsGetFails = true → ensureTags s tags = (.error ("unable to get all tags"), s, [])) ∧
    (s.tagsGetFails = false →
      (∀ t ∈ tags.filter (fun t => !s.tagDefs.contains t), s.failingTagCreates.contains t = false) →
      ensureTags s tags =
        (.ok (), { s with tagDefs := s.tagDefs ++ tags.filter (fun t => !s.tagDefs.contains t) },
          (tags.filter (fun t => !s.tagDefs.contains t)).map Effect.tagCreate) ∧
      (∀ t, s.tagDefs.contains t = true → Effect.tagCreate t ∉ (ensureTags s tags).2.2) ∧
      ensureTags (ensureTags s tags).2.1 tags = (.ok (), (ensureTags s tags).2.1, [])) ∧
    (∀ pre t rest, tags.filter (fun t => !s.tagDefs.contains t) = pre ++ t :: rest →
      s.tagsGetFails = false →
      (∀ x ∈ pre, s.failingTagCreates.contains x = false) →
      s.failingTagCreates.contains t = true →
      ensureTags s tags =
        (.error ("unable to create tag " ++ t), { s with tagDefs := s.tagDefs ++ pre },
          pre.map Effect.tagCreate)) := by
  refine ⟨fun h => by simp [ensureTags, h], fun hg hok => ?_, fun pre t rest hsplit hg hpre ht => ?_⟩
  · have hmain : ensureTags s tags =
        (.ok (), { s with tagDefs := s.tagDefs ++ tags.filter (fun t => !s.tagDefs.contains t) },
          (tags.filter (fun t => !s.tagDefs.contains t)).map Effect.tagCreate) := by
      unfold ensureTags
      rw [if_neg (by simp [hg])]
      exact createTagsLoop_ok s _ hok
    refine ⟨hmain, ?_, ?_⟩
    · intro t hd hc
      rw [hmain] at hc
      rcases List.mem_map.mp hc with ⟨x, hx, hxe⟩
      have hxt : x = t := by injection hxe
      subst hxt
      have hnd := (List.mem_filter.mp hx).2
      rw [hd] at hnd
      simp at hnd
    · rw [hmain]
      have hfilter2 : tags.filter
          (fun t => !({ s with tagDefs := s.tagDefs ++ tags.filter (fun t => !s.tagDefs.contains t) } : Store).tagDefs.contains t) = [] := by
        rw [List.filter_eq_nil_iff]
        intro a ha
        simp only [Bool.not_eq_true', Bool.not_eq_eq_eq_not, Bool.not_true]
        by_cases hc : s.tagDefs.contains a = true
        · simp_all [List.mem_append]
        · have : a ∈ tags.filter (fun t => !s.tagDefs.contains t) :=
            List.mem_filter.mpr ⟨ha, by simp_all⟩
          simp_all [List.mem_append]
      unfold ensureTags
      rw [if_neg (by simp [hg])]
      rw [hfilter2]
      rfl
  · unfold ensureTags
    rw [if_neg (by simp [hg])]
    rw [hsplit]
    exact createTagsLoop_fail pre s t rest hpre ht

/-- C8 witness: a failing listing call creates nothing; with "usage"
already declared and creation of "serviceName" failing, the third of the
five required names fails and the two created before it remain. -/
theorem C8_witness :
    storeTagsListFail.tagsGetFails = true ∧
    ensureTags storeTagsListFail [deleteTag] =
      (.error ("unable to get all tags"), storeTagsListFail, []) ∧
    ensureTags storeTags [pnapTag, clusterTagName, serviceNamespaceTag, serviceNameTag, deleteTag]
      = (.error ("unable to create tag " ++ serviceNameTag),
          { storeTags with tagDefs := [pnapTag, clusterTagName, serviceNamespaceTag] },
          [Effect.tagCreate clusterTagName, Effect.tagCreate serviceNamespaceTag]) :=
  ⟨rfl, (C8_theorem storeTagsListFail [deleteTag]).1 rfl,
    by
      have h := (C8_theorem storeTags
          [pnapTag, clusterTagName, serviceNamespaceTag, serviceNameTag, deleteTag]).2.2
          [clusterTagName, serviceNamespaceTag] serviceNameTag [deleteTag]
          (by decide) rfl (by decide) (by decide)
      simpa using h⟩

theorem ensureDeleted_eq_of_clear_error {l : LB} {s : Store} {svc : Service} {e : String}
    {s1 : Store} {effs1 : List Effect}
    (hcc : clearServiceIP s svc = (.error e, s1, effs1)) :
    EnsureLoadBalancerDeleted l s svc = (.error e, s1, effs1) := by
  unfold EnsureLoadBalancerDeleted
  rw [hcc]

theorem ensureDeleted_eq_of_clear_ok {l : LB} {s : Store} {svc : Service} {u : Unit}
    {s1 : Store} {effs1 : List Effect}
    (hcc : clearServiceIP s svc = (.ok u, s1, effs1)) :
    EnsureLoadBalancerDeleted l s svc =
      match getIPBlocks l s1 svc.ns svc.name true false with
      | [] => (.ok (), s1, effs1)
      | b :: rest =>
        if rest.length > 0 then
          (.error ("multiple IP blocks found for " ++ serviceRep svc ++ ", cannot delete"), s1, effs1)
        else
          ((.ok (),
            { s1 with blocks := s1.blocks.map (fun x =>
                if x.id == b.id then { x with tags := stagedTags b } else x) },
            effs1 ++ [.blockTagsPut b.id (stagedTags b)])) := by
  unfold EnsureLoadBalancerDeleted
  rw [hcc]

theorem clearServiceIP_of_getFail {s : Store} {svc : Service} (h : s.svcGetFails = true) :
    clearServiceIP s svc = (.ok (), s, []) := by
  unfold clearServiceIP
  rw [if_pos h]

theorem clearServiceIP_of_found {s : Store} {svc : Service} {e : Service}
    (hg : s.svcGetFails = false) (hf : findService s svc.ns svc.name = some e) :
    clearServiceIP s svc =
      (if s.svcUpdateFails then
        ((.error ("failed to update service " ++ serviceRep svc), s, []) :
          Except String Unit × Store × List Effect)
      else
        (.ok (), updateService s { e with loadBalancerIP := "" },
          [.serviceUpdate svc.ns svc.name ("")])) := by
  unfold clearServiceIP
  rw [if_neg (by simp [hg]), hf]

/-- C5: for a service with exactly one active block, after a successful
`EnsureLoadBalancerDeleted` the block still exists in the remote store and
its tag set carries the delete marker, and the operation issued no
detach-from-network call and no block-delete call. -/
theorem C5_theorem (l : LB) (s : Store) (svc : Service) (b : IpBlock)
    (h1 : getIPBlocks l s svc.ns svc.name true false = [b])
    (h2 : (EnsureLoadBalancerDeleted l s svc).1 = .ok ()) :
    ((EnsureLoadBalancerDeleted l s svc).2.1.blocks.any
        (fun x => x.id == b.id && isDeleted x)) = true ∧
    ∀ eff ∈ (EnsureLoadBalancerDeleted l s svc).2.2,
      eff.isBlockUnassign = false ∧ eff.isBlockDelete = false := by
  rcases hcc : clearServiceIP s svc with ⟨r, s1, effs1⟩
  have hbmem : b ∈ s.blocks :=
    mem_blocks_of_mem_getIPBlocks (x := b) (by rw [h1]; exact List.mem_singleton.mpr rfl)
  cases r with
  | error e =>
    rw [ensureDeleted_eq_of_clear_error hcc] at h2
    simp at h2
  | ok u =>
    have hs1 : s1.blocks = s.blocks := by
      have hcb := clearServiceIP_blocks s svc
      rw [hcc] at hcb
      exact hcb
    have hq1 : getIPBlocks l s1 svc.ns svc.name true false = [b] := by
      rw [getIPBlocks_blocks_congr l svc.ns svc.name true false hs1, h1]
    have heffs : effs1 = [] ∨ effs1 = [.serviceUpdate svc.ns svc.name ("")] := by
      have hce := clearServiceIP_effects s svc
      rw [hcc] at hce
      exact hce
    rw [ensureDeleted_eq_of_clear_ok hcc, hq1]
    constructor
    · refine List.any_eq_true.mpr ⟨{ b with tags := stagedTags b }, ?_, ?_⟩
      · refine List.mem_map.mpr ⟨b, hs1 ▸ hbmem, ?_⟩
        simp
      · simp [isDeleted, stagedTags]
    · intro eff he
      rcases List.mem_append.mp he with hl | hr
      · rcases heffs with h0 | h0 <;> rw [h0] at hl
        · simp at hl
        · rw [List.mem_singleton.mp hl]
          exact ⟨rfl, rfl⟩
      · rw [List.mem_singleton.mp hr]
        exact ⟨rfl, rfl⟩

/-- C5 witness: the one-active-block store; the block survives with the
delete marker. -/
theorem C5_witness :
    getIPBlocks lbC storeOneActive svcFresh.ns svcFresh.name true false = [blkActive] ∧
    (EnsureLoadBalancerDeleted lbC storeOneActive svcFresh).1 = .ok () ∧
    ((EnsureLoadBalancerDeleted lbC storeOneActive svcFresh).2.1.blocks.any
        (fun x => x.id == blkActive.id && isDeleted x)) = true :=
  ⟨by decide, by decide,
    (C5_theorem lbC storeOneActive svcFresh blkActive (by decide) (by decide)).1⟩

/-- C6 (amended): `EnsureLoadBalancerDeleted` clears the recorded IP from
the service object before touching the block's tags; a failed fetch of
the service object is logged and skipped, the re-tagging still happening;
a failed update call aborts the whole operation with an error and no
re-tagging. -/
theorem C6_theorem (l : LB) (s : Store) (svc : Service) (b : IpBlock) (e : Service)
    (h1 : getIPBlocks l s svc.ns svc.name true false = [b]) :
    (s.svcGetFails = true →
      (EnsureLoadBalancerDeleted l s svc).1 = .ok () ∧
      (EnsureLoadBalancerDeleted l s svc).2.2 = [.blockTagsPut b.id (stagedTags b)]) ∧
    (s.svcGetFails = false → findService s svc.ns svc.name = some e → s.svcUpdateFails = true →
      EnsureLoadBalancerDeleted l s svc =
        (.error ("failed to update service " ++ serviceRep svc), s, [])) ∧
    (s.svcGetFails = false → findService s svc.ns svc.name = some e → s.svcUpdateFails = false →
      (EnsureLoadBalancerDeleted l s svc).1 = .ok () ∧
      (EnsureLoadBalancerDeleted l s svc).2.2 =
        [.serviceUpdate svc.ns svc.name (""), .blockTagsPut b.id (stagedTags b)]) := by
  refine ⟨fun hgf => ?_, fun hg hf hu => ?_, fun hg hf hu => ?_⟩
  · rw [ensureDeleted_eq_of_clear_ok (clearServiceIP_of_getFail hgf), h1]
    exact ⟨rfl, rfl⟩
  · have hcc := clearServiceIP_of_found hg hf
    rw [if_pos hu] at hcc
    exact ensureDeleted_eq_of_clear_error hcc
  · have hcc := clearServiceIP_of_found hg hf
    rw [if_neg (by simp [hu])] at hcc
    have hq1 : getIPBlocks l (updateService s { e with loadBalancerIP := "" })
        svc.ns svc.name true false = [b] := by
      rw [getIPBlocks_blocks_congr l svc.ns svc.name true false (updateService_blocks s _), h1]
    rw [ensureDeleted_eq_of_clear_ok hcc, hq1]
    exact ⟨rfl, rfl⟩

/-- C6 witness: the amended claim at the one-block store, once with the
service fetch failing (operation succeeds and re-tags) and once with the
service update failing (operation errors without re-tagging). -/
theorem C6_witness :
    getIPBlocks lbC storeOneActiveGetFail svcFresh.ns svcFresh.name true false = [blkActive] ∧
    (EnsureLoadBalancerDeleted lbC storeOneActiveGetFail svcFresh).1 = .ok () ∧
    EnsureLoadBalancerDeleted lbC storeOneActiveUpdFail svcFresh =
      (.error ("failed to update service " ++ serviceRep svcFresh), storeOneActiveUpdFail, []) :=
  ⟨by decide,
    ((C6_theorem lbC storeOneActiveGetFail svcFresh blkActive svcFresh (by decide)).1 rfl).1,
    (C6_theorem lbC storeOneActiveUpdFail svcFresh blkActive svcFresh (by decide)).2.1
      rfl (by decide) rfl⟩

/-- C10: the tag set `EnsureLoadBalancerDeleted` writes on a successful
staging equals the block's previous tag set minus the service-name and
service-namespace tags plus the delete marker valued "true"; afterwards no
active-block query of any scope returns a block with the staged block's
id. -/
theorem C10_theorem (l : LB) (s : Store) (svc : Service) (b : IpBlock)
    (h1 : getIPBlocks l s svc.ns svc.name true false = [b])
    (h2 : (EnsureLoadBalancerDeleted l s svc).1 = .ok ()) :
    Effect.blockTagsPut b.id
        ((b.tags.filter (fun t => !(t.name == serviceNameTag || t.name == serviceNamespaceTag)))
          ++ [⟨deleteTag, some ("true")⟩])
      ∈ (EnsureLoadBalancerDeleted l s svc).2.2 ∧
    ∀ (ns2 name2 : String) (x : IpBlock),
      x ∈ getIPBlocks l (EnsureLoadBalancerDeleted l s svc).2.1 ns2 name2 true false →
      x.id ≠ b.id := by
  rcases hcc : clearServiceIP s svc with ⟨r, s1, effs1⟩
  cases r with
  | error e =>
    rw [ensureDeleted_eq_of_clear_error hcc] at h2
    simp at h2
  | ok u =>
    have hs1 : s1.blocks = s.blocks := by
      have hcb := clearServiceIP_blocks s svc
      rw [hcc] at hcb
      exact hcb
    have hq1 : getIPBlocks l s1 svc.ns svc.name true false = [b] := by
      rw [getIPBlocks_blocks_congr l svc.ns svc.name true false hs1, h1]
    rw [ensureDeleted_eq_of_clear_ok hcc, hq1]
    constructor
    · exact List.mem_append_right _ (List.mem_singleton.mpr rfl)
    · intro ns2 name2 x hx
      have hdel : isDeleted x = false := isDeleted_false_of_mem_active hx
      have hxm : x ∈ s1.blocks.map (fun y =>
          if y.id == b.id then { y with tags := stagedTags b } else y) :=
        mem_blocks_of_mem_getIPBlocks hx
      rcases List.mem_map.mp hxm with ⟨y, _, hyx⟩
      intro hxid
      by_cases hyb : (y.id == b.id) = true
      · rw [if_pos hyb] at hyx
        rw [← hyx] at hdel
        simp [isDeleted, stagedTags] at hdel
      · rw [if_neg hyb] at hyx
        rw [← hyx] at hxid
        exact hyb (by simp [hxid])

/-- C10 witness: staging the one active block writes exactly the stripped
tag set plus the delete marker. -/
theorem C10_witness :
    getIPBlocks lbC storeOneActive svcFresh.ns svcFresh.name true false = [blkActive] ∧
    (EnsureLoadBalancerDeleted lbC storeOneActive svcFresh).1 = .ok () ∧
    Effect.blockTagsPut blkActive.id
        ((blkActive.tags.filter
            (fun t => !(t.name == serviceNameTag || t.name == serviceNamespaceTag)))
          ++ [⟨deleteTag, some ("true")⟩])
      ∈ (EnsureLoadBalancerDeleted lbC storeOneActive svcFresh).2.2 :=
  ⟨by decide, by decide,
    (C10_theorem lbC storeOneActive svcFresh blkActive (by decide) (by decide)).1⟩

theorem checkOrAssign_of_unassigned {l : LB} {s : Store} {b : IpBlock}
    (ha : b.assignedResourceType = none) :
    checkOrAssign l s b =
      (.ok (), assignBlock s b.id l.network, [.blockAssign l.network b.id]) := by
  unfold checkOrAssign
  rw [ha]

theorem checkOrAssign_of_assigned {l : LB} {s : Store} {b : IpBlock} {t : String}
    (ha : b.assignedResourceType = some t)
    (ht : t = publicNetwork ∨ t = publicNetworkCaps)
    (hid : b.assignedResourceId = some l.network) :
    checkOrAssign l s b = (.ok (), s, []) := by
  unfold checkOrAssign
  simp only [ha]
  rw [if_neg (by rcases ht with h | h <;> simp [h])]
  simp only [hid]
  rw [if_neg (by simp)]

/-- C1 (amended): for every active block with CIDR prefix 10.0.0.0/29 that
EnsureLoadBalancer finds (the single active block, whether not yet
attached or already attached to the configured network) or creates (no
active block; the provider hands out 10.0.0.0/29) for a service without a
recorded IP, the service address it derives and writes to the service
object is 10.0.0.2 — the first usable address after the network address .0
and the gateway address .1 — and, the run being a function of the store,
the same value is derived on every repeated call from a store satisfying
the same conditions. -/
theorem C1_theorem (l : LB) (sel : List (String × String) → Bool) (s : Store) (svc : Service)
    (nodes : List Node) (e : Service)
    (hip : svc.loadBalancerIP = "")
    (hget : s.svcGetFails = false)
    (hupd : s.svcUpdateFails = false)
    (hfind : findService s svc.ns svc.name = some e)
    (hblocks :
      (∃ b, getIPBlocks l s svc.ns svc.name true false = [b] ∧ b.cidr = "10.0.0.0/29"
        ∧ (b.assignedResourceType = none
          ∨ ((b.assignedResourceType = some publicNetwork
              ∨ b.assignedResourceType = some publicNetworkCaps)
            ∧ b.assignedResourceId = some l.network)))
      ∨ (getIPBlocks l s svc.ns svc.name true false = [] ∧ s.freshCidr = "10.0.0.0/29"
        ∧ s.tagsGetFails = false ∧ s.failingTagCreates = [])) :
    Effect.serviceUpdate svc.ns svc.name ("10.0.0.2")
      ∈ (EnsureLoadBalancer l sel s svc nodes).2.2 := by
  have hpc : parseCIDR ("10.0.0.0/29") = some ⟨167772160, 29⟩ := by decide
  have hder : deriveIP 167772160 = "10.0.0.2" := by decide
  simp only [findService] at hfind
  rcases hblocks with ⟨b, hb, hc, hA⟩ | ⟨hb, hcf, hg2, hf2⟩
  · unfold EnsureLoadBalancer
    rw [getLB_of_empty_ip hip]
    rcases hA with ha | ⟨ht, hid⟩
    · have hca := checkOrAssign_of_unassigned (l := l) (s := s) ha
      simp [hb, findOrCreateBlock, hca, hc, hpc, hder, addService, hip, hget, hupd,
        hfind, assignBlock, updateService, findService]
    · have hca : checkOrAssign l s b = (.ok (), s, []) := by
        rcases ht with hA2 | hA2
        · exact checkOrAssign_of_assigned hA2 (.inl rfl) hid
        · exact checkOrAssign_of_assigned hA2 (.inr rfl) hid
      simp [hb, findOrCreateBlock, hca, hc, hpc, hder, addService, hip, hget, hupd,
        hfind, updateService, findService]
  · have hens : ensureTags s
        [pnapTag, clusterTagName, serviceNamespaceTag, serviceNameTag, deleteTag] =
        (.ok (),
          { s with tagDefs := s.tagDefs ++
            ([pnapTag, clusterTagName, serviceNamespaceTag, serviceNameTag,
              deleteTag].filter (fun t => !s.tagDefs.contains t)) },
          ([pnapTag, clusterTagName, serviceNamespaceTag, serviceNameTag,
            deleteTag].filter (fun t => !s.tagDefs.contains t)).map Effect.tagCreate) := by
      unfold ensureTags
      rw [if_neg (by simp [hg2])]
      exact createTagsLoop_ok s _ (by intro t ht; simp [hf2])
    unfold EnsureLoadBalancer
    rw [getLB_of_empty_ip hip]
    simp [hb, findOrCreateBlock, hens, checkOrAssign, hcf, hpc, hder, addService, hip, hget,
      hupd, hfind, assignBlock, updateService, findService]

/-- C1 witness: the amended claim at the store holding one active
unattached 10.0.0.0/29 block for svc-a, and at the store whose single
active block is already attached to the configured network. -/
theorem C1_witness :
    svcFresh.loadBalancerIP = "" ∧ blkActive.cidr = "10.0.0.0/29" ∧
    Effect.serviceUpdate svcFresh.ns svcFresh.name ("10.0.0.2")
      ∈ (EnsureLoadBalancer lbC selTrue storeOneActive svcFresh []).2.2 ∧
    blkAttached.assignedResourceId = some lbC.network ∧
    Effect.serviceUpdate svcFresh.ns svcFresh.name ("10.0.0.2")
      ∈ (EnsureLoadBalancer lbC selTrue storeOneAttached svcFresh []).2.2 :=
  ⟨rfl, rfl,
    C1_theorem lbC selTrue storeOneActive svcFresh [] svcFresh rfl rfl rfl (by decide)
      (.inl ⟨blkActive, by decide, rfl, .inl rfl⟩),
    rfl,
    C1_theorem lbC selTrue storeOneAttached svcFresh [] svcFresh rfl rfl rfl (by decide)
      (.inl ⟨blkAttached, by decide, rfl, .inr ⟨.inr rfl, rfl⟩⟩)⟩

end PnapCCM
